import Mathlib

/-!
# Brick_Item chaincode (`start/chaincode_start.go`)

A shallow embedding of the three operations of `SimpleChaincode`:

* `Init`        (spec: Initialize)  creates the table `Brick_Item`;
* `insertItem`  (spec: Upsert)      inserts a row or merges into an existing one;
* `readItem`    (spec: ReadByKey)   returns one column of the row of a key.

The chaincode talks to the ledger only through `shim.ChaincodeStubInterface`.
The stub is a parameter of the embedding: a record of functions over an
arbitrary ledger state `σ`.  Every operation returns what the Go function
returned (or the run-time panic that stopped it), the ledger state it left, and
the ordered list of stub calls it issued together with the answers it got.
Logging (`myLogger`, `fmt.Println`) has no effect on any of these and is left out.
-/

namespace Chaincode

/-! ## Data model of the shim package, as far as the chaincode uses it

The types and getters below are declared in the imported package
`github.com/hyperledger/fabric/core/chaincode/shim` (its generated protobuf code
for tables); the chaincode only uses them. -/

/-- A Go `error`, represented by the text of its `Error()` method, which is all
the chaincode ever does with one (formatting with `%s`). -/
abbrev GoError := String

/-- A Go `[]byte`; the nil slice is the empty list. -/
abbrev Bytes := List UInt8

/-- The enum `shim.ColumnDefinition_Type`. -/
inductive ColumnDefinition_Type where
  | STRING | INT32 | INT64 | UINT32 | UINT64 | BYTES | BOOL
deriving DecidableEq, Repr

/-- The struct `shim.ColumnDefinition` (field `Type` is spelled `Type_`). -/
structure ColumnDefinition where
  Name : String
  Type_ : ColumnDefinition_Type
  Key : Bool
deriving DecidableEq, Repr

/-- The protobuf oneof `value` of `shim.Column`: exactly one of seven wrappers. -/
inductive isColumn_Value where
  | Column_String_ (String_ : String)
  | Column_Int32 (Int32 : Int)
  | Column_Int64 (Int64 : Int)
  | Column_Uint32 (Uint32 : Nat)
  | Column_Uint64 (Uint64 : Nat)
  | Column_Bytes (Bytes : Bytes)
  | Column_Bool (Bool : Bool)
deriving DecidableEq, Repr

/-- The struct `shim.Column`.  `Value = none` is the Go nil interface; a nil
`*Column` inside `Row.Columns` behaves the same under every getter and is
identified with it. -/
structure Column where
  Value : Option isColumn_Value
deriving DecidableEq, Repr

/-- The struct `shim.Row`. -/
structure Row where
  Columns : List Column
deriving DecidableEq, Repr

/-- The getter `(*Column).GetString_` generated for the oneof: the string when
the value is a `Column_String_`, the empty string otherwise. -/
def Column.GetString_ (m : Column) : String :=
  match m.Value with
  | some (.Column_String_ x) => x
  | _ => ""

/-- The getter `(*Column).GetBytes` generated for the oneof: the bytes when the
value is a `Column_Bytes`, the nil slice otherwise. -/
def Column.GetBytes (m : Column) : Bytes :=
  match m.Value with
  | some (.Column_Bytes x) => x
  | _ => []

/-- The Go expression `shim.Column{Value: &shim.Column_String_{String_: v}}`. -/
def stringColumn (v : String) : Column :=
  ⟨some (.Column_String_ v)⟩

/-- The conversion `[]byte(s)`: the UTF-8 encoding of a string. -/
def stringBytes (s : String) : Bytes :=
  s.data.flatMap String.utf8EncodeChar

/-- The four methods of `shim.ChaincodeStubInterface` the chaincode calls, over
a ledger state `σ`.  Each takes the state before the call and gives the Go
results and the state after it.  `GetRow` returns `(Row, error)`, the two write
calls return `(bool, error)`. -/
structure ChaincodeStubInterface (σ : Type) where
  CreateTable : σ → String → List ColumnDefinition → Option GoError × σ
  GetRow : σ → String → List Column → (Row × Option GoError) × σ
  InsertRow : σ → String → Row → (Bool × Option GoError) × σ
  ReplaceRow : σ → String → Row → (Bool × Option GoError) × σ

/-- One call on the stub, with its arguments and what the stub answered. -/
inductive Call where
  | CreateTable (name : String) (defs : List ColumnDefinition) (err : Option GoError)
  | GetRow (name : String) (key : List Column) (row : Row) (err : Option GoError)
  | InsertRow (name : String) (row : Row) (ok : Bool) (err : Option GoError)
  | ReplaceRow (name : String) (row : Row) (ok : Bool) (err : Option GoError)
deriving DecidableEq, Repr

/-- The call is an `InsertRow`. -/
def Call.isInsertRow : Call → Bool
  | .InsertRow .. => true
  | _ => false

/-- The call is a `ReplaceRow`. -/
def Call.isReplaceRow : Call → Bool
  | .ReplaceRow .. => true
  | _ => false

/-- The call is a write (`InsertRow` or `ReplaceRow`). -/
def Call.isWrite (c : Call) : Bool :=
  c.isInsertRow || c.isReplaceRow

/-- How a chaincode method ends: it returns the pair `([]byte, error)`, or the
Go run time stops it with `index out of range` at `index` of a slice of
length `len`. -/
inductive Outcome where
  | ret (payload : Bytes) (err : Option GoError)
  | indexOutOfRange (index len : Nat)
deriving DecidableEq, Repr

/-- The method returned (it did not panic). -/
def Outcome.returned : Outcome → Bool
  | .ret .. => true
  | .indexOutOfRange .. => false

/-- The result of running one chaincode method. -/
structure Run (σ : Type) where
  out : Outcome
  state : σ
  calls : List Call

/-! ## The chaincode -/

/-- The schema literal of `Init` (lines 53-57). -/
def Brick_Item_columns : List ColumnDefinition :=
  [ ⟨"Item_ID", .STRING, true⟩,
    ⟨"Unit_Price", .STRING, false⟩,
    ⟨"Item_Quantity", .STRING, false⟩ ]

/-- The method `(t *SimpleChaincode) Init` (lines 46-63).  Its parameter
`function` is not used by the body and is left out. -/
def Init {σ : Type} (stub : ChaincodeStubInterface σ) (s : σ) (args : List String) : Run σ :=
  if args.length ≠ 0 then
    ⟨.ret [] (some "Incorrect number of arguments. Expecting 0"), s, []⟩
  else
    let r := stub.CreateTable s "Brick_Item" Brick_Item_columns
    let c := Call.CreateTable "Brick_Item" Brick_Item_columns r.1
    match r.1 with
    | some _ => ⟨.ret [] (some "Failed creating Brick_Item table."), r.2, [c]⟩
    | none => ⟨.ret [] none, r.2, [c]⟩

/-- The method `(t *SimpleChaincode) insertItem` (lines 80-130).  The three
index expressions of the replacement row are evaluated left to right before
`ReplaceRow` is called, so an index out of range stops the method before any
write.  The final `return nil, err` returns the `err` of `GetRow`, which is nil
on that path. -/
def insertItem {σ : Type} (stub : ChaincodeStubInterface σ) (s : σ) (args : List String) : Run σ :=
  if args.length ≠ 3 then
    ⟨.ret [] (some "Incorrect number of arguments. Expecting 2"), s, []⟩
  else
    let Item_ID := args.getD 0 ""
    let Unit_Price := args.getD 1 ""
    let Item_Quantity := args.getD 2 ""
    let columns := [stringColumn Item_ID]
    let g := stub.GetRow s "Brick_Item" columns
    let cg := Call.GetRow "Brick_Item" columns g.1.1 g.1.2
    match g.1.2 with
    | some err => ⟨.ret [] (some ("Failed retriving associated row [" ++ err ++ "]")), g.2, [cg]⟩
    | none =>
      let row := g.1.1
      if row.Columns.length = 0 then
        let newRow : Row :=
          ⟨[stringColumn Item_ID, stringColumn Unit_Price, stringColumn Item_Quantity]⟩
        let w := stub.InsertRow g.2 "Brick_Item" newRow
        let cw := Call.InsertRow "Brick_Item" newRow w.1.1 w.1.2
        match w.1.2 with
        | some err => ⟨.ret [] (some ("Failed inserting row [" ++ err ++ "]")), w.2, [cg, cw]⟩
        | none =>
          if !w.1.1 then ⟨.ret [] (some "Failed inserting row."), w.2, [cg, cw]⟩
          else ⟨.ret [] none, w.2, [cg, cw]⟩
      else
        match row.Columns[0]? with
        | none => ⟨.indexOutOfRange 0 row.Columns.length, g.2, [cg]⟩
        | some c0 =>
          match row.Columns[1]? with
          | none => ⟨.indexOutOfRange 1 row.Columns.length, g.2, [cg]⟩
          | some c1 =>
            match row.Columns[2]? with
            | none => ⟨.indexOutOfRange 2 row.Columns.length, g.2, [cg]⟩
            | some c2 =>
              let newRow : Row :=
                ⟨[stringColumn (c0.GetString_ ++ " " ++ Item_ID),
                  stringColumn (c1.GetString_ ++ " " ++ Unit_Price),
                  stringColumn (c2.GetString_ ++ " " ++ Item_Quantity)]⟩
              let w := stub.ReplaceRow g.2 "Brick_Item" newRow
              let cw := Call.ReplaceRow "Brick_Item" newRow w.1.1 w.1.2
              match w.1.2 with
              | some err =>
                ⟨.ret [] (some ("Failed replacing row [" ++ err ++ "]")), w.2, [cg, cw]⟩
              | none =>
                if !w.1.1 then ⟨.ret [] (some "Failed replacing row."), w.2, [cg, cw]⟩
                else ⟨.ret [] none, w.2, [cg, cw]⟩

/-- The method `(t *SimpleChaincode) readItem` (lines 147-166).  After a `GetRow`
without error the method indexes `row.Columns[1]` with no length check (first
for the debug line 163, then for the return value). -/
def readItem {σ : Type} (stub : ChaincodeStubInterface σ) (s : σ) (args : List String) : Run σ :=
  if args.length ≠ 1 then
    ⟨.ret [] (some "Expecting one argument as key"), s, []⟩
  else
    let item_code := args.getD 0 ""
    let columns := [stringColumn item_code]
    let g := stub.GetRow s "Brick_Item" columns
    let cg := Call.GetRow "Brick_Item" columns g.1.1 g.1.2
    match g.1.2 with
    | some err =>
      ⟨.ret [] (some ("Failed retriving item_code [" ++ item_code ++ "]: [" ++ err ++ "]")),
        g.2, [cg]⟩
    | none =>
      let row := g.1.1
      match row.Columns[1]? with
      | none => ⟨.indexOutOfRange 1 row.Columns.length, g.2, [cg]⟩
      | some c1 => ⟨.ret c1.GetBytes none, g.2, [cg]⟩

/-! ## A reference ledger

The table store the properties P1-P3 are stated against: a table is created
once, each row is stored under the values of its key columns, `GetRow` is an
equality lookup on them and answers a row with zero columns when there is none,
`InsertRow` applies only when no row has that key and `ReplaceRow` only when one
has. -/

/-- One table of the reference ledger. -/
structure Table where
  name : String
  defs : List ColumnDefinition
  rows : List Row
deriving DecidableEq, Repr

/-- The reference ledger: its tables, oldest first. -/
abbrev Ledger := List Table

/-- The values of the key columns of a row under a schema. -/
def keyOf : List ColumnDefinition → List Column → List Column
  | d :: ds, c :: cs => if d.Key then c :: keyOf ds cs else keyOf ds cs
  | _, _ => []

/-- The table of that name, if it was created. -/
def findTable (L : Ledger) (name : String) : Option Table :=
  L.find? (fun t => t.name = name)

/-- The row stored under a key in a table. -/
def Table.lookup (t : Table) (key : List Column) : Option Row :=
  t.rows.find? (fun r => keyOf t.defs r.Columns = key)

/-- Put a table in the place of the one with the same name. -/
def putTable (L : Ledger) (t : Table) : Ledger :=
  L.map (fun u => if u.name = t.name then t else u)

/-- Modelled from the spec: `CreateTable` of the table-storage backend, which
rejects the creation of a table that already exists. -/
def memCreateTable (L : Ledger) (name : String) (defs : List ColumnDefinition) :
    Option GoError × Ledger :=
  match findTable L name with
  | some _ => (some ("CreateTable operation failed. Table " ++ name ++ " already exists."), L)
  | none => (none, L ++ [⟨name, defs, []⟩])

/-- Modelled from the spec: `GetRow` of the table-storage backend, an equality
lookup on the key columns that answers the row under the key, or a row with zero
columns and no error when there is none. -/
def memGetRow (L : Ledger) (name : String) (key : List Column) :
    (Row × Option GoError) × Ledger :=
  match findTable L name with
  | none => ((⟨[]⟩, none), L)
  | some t => (((t.lookup key).getD ⟨[]⟩, none), L)

/-- Modelled from the spec: `InsertRow` of the table-storage backend, applied
only when no row has the key of the new row; otherwise `(false, nil)`. -/
def memInsertRow (L : Ledger) (name : String) (row : Row) :
    (Bool × Option GoError) × Ledger :=
  match findTable L name with
  | none => ((false, some ("Table " ++ name ++ " not found.")), L)
  | some t =>
    match t.lookup (keyOf t.defs row.Columns) with
    | some _ => ((false, none), L)
    | none => ((true, none), putTable L { t with rows := t.rows ++ [row] })

/-- Modelled from the spec: `ReplaceRow` of the table-storage backend, applied
only when a row with the key of the replacement row exists; otherwise
`(false, nil)`. -/
def memReplaceRow (L : Ledger) (name : String) (row : Row) :
    (Bool × Option GoError) × Ledger :=
  match findTable L name with
  | none => ((false, some ("Table " ++ name ++ " not found.")), L)
  | some t =>
    match t.lookup (keyOf t.defs row.Columns) with
    | none => ((false, none), L)
    | some _ =>
      ((true, none),
        putTable L { t with rows := t.rows.map (fun r =>
          if keyOf t.defs r.Columns = keyOf t.defs row.Columns then row else r) })

/-- Modelled from the spec: the table-storage backend as a stub, each row stored
under the values of its own key columns. -/
def memStub : ChaincodeStubInterface Ledger where
  CreateTable := memCreateTable
  GetRow := memGetRow
  InsertRow := memInsertRow
  ReplaceRow := memReplaceRow

/-- The ledger after `Init` on the empty ledger. -/
def initialized : Ledger :=
  (Init memStub [] []).state

/-- The backend rejects creating a table that already exists: once a
`CreateTable` of a name went through, every later one of that name errors. -/
def RejectsDuplicateTable {σ : Type} (stub : ChaincodeStubInterface σ) : Prop :=
  ∀ (s : σ) (name : String) (defs defs2 : List ColumnDefinition),
    (stub.CreateTable s name defs).1 = none →
      (stub.CreateTable (stub.CreateTable s name defs).2 name defs2).1 ≠ none

/-- The text `e` occurs in the text `msg`. -/
def containsText (msg e : String) : Prop :=
  e.data <:+: msg.data

instance (msg e : String) : Decidable (containsText msg e) :=
  inferInstanceAs (Decidable (e.data <:+: msg.data))

/-- A ledger holding exactly the table `Brick_Item` with the schema of `Init`
and the given rows. -/
def brickLedger (rows : List Row) : Ledger :=
  [⟨"Brick_Item", Brick_Item_columns, rows⟩]

/-! ## Lemmas on the reference ledger -/

theorem initialized_eq : initialized = brickLedger [] := by
  decide

theorem findTable_brickLedger (rows : List Row) :
    findTable (brickLedger rows) "Brick_Item" = some ⟨"Brick_Item", Brick_Item_columns, rows⟩ := by
  simp [findTable, brickLedger]

theorem keyOf_three (c0 c1 c2 : Column) :
    keyOf Brick_Item_columns [c0, c1, c2] = [c0] := by
  simp [keyOf, Brick_Item_columns]

theorem putTable_brickLedger (rows rows2 : List Row) :
    putTable (brickLedger rows) ⟨"Brick_Item", Brick_Item_columns, rows2⟩ = brickLedger rows2 := by
  simp [putTable, brickLedger]

theorem memStub_rejectsDuplicateTable : RejectsDuplicateTable memStub := by
  intro L name defs defs2 h
  simp only [memStub, memCreateTable] at h ⊢
  cases hf : findTable L name with
  | some t => simp [hf] at h
  | none =>
    simp only [hf]
    have : findTable (L ++ [⟨name, defs, []⟩]) name = some ⟨name, defs, []⟩ := by
      simp only [findTable] at hf ⊢
      simp [List.find?_append, hf]
    simp [this]

theorem append_space_ne (K : String) : K ++ " " ++ K ≠ K := by
  intro h
  have hlen := congrArg String.length h
  simp only [String.length_append] at hlen
  have hone : " ".length = 1 := rfl
  omega

theorem stringColumn_inj {a b : String} (h : stringColumn a = stringColumn b) : a = b := by
  simpa [stringColumn] using h

theorem lookup_append (rows : List Row) (r : Row) (key : List Column) :
    (Table.mk "Brick_Item" Brick_Item_columns (rows ++ [r])).lookup key =
      ((Table.mk "Brick_Item" Brick_Item_columns rows).lookup key).or
        (if keyOf Brick_Item_columns r.Columns = key then some r else none) := by
  simp only [Table.lookup, List.find?_append]
  congr 1
  by_cases h : keyOf Brick_Item_columns r.Columns = key <;> simp [List.find?, h]

theorem memGetRow_brickLedger (rows : List Row) (key : List Column) :
    memStub.GetRow (brickLedger rows) "Brick_Item" key =
      ((((Table.mk "Brick_Item" Brick_Item_columns rows).lookup key).getD ⟨[]⟩, none),
        brickLedger rows) := by
  simp [memStub, memGetRow, findTable_brickLedger]

theorem memInsertRow_fresh (rows : List Row) (c0 c1 c2 : Column)
    (h : (Table.mk "Brick_Item" Brick_Item_columns rows).lookup [c0] = none) :
    memStub.InsertRow (brickLedger rows) "Brick_Item" ⟨[c0, c1, c2]⟩ =
      ((true, none), brickLedger (rows ++ [⟨[c0, c1, c2]⟩])) := by
  simp [memStub, memInsertRow, findTable_brickLedger, keyOf_three, h, putTable_brickLedger]

theorem memReplaceRow_absent (rows : List Row) (c0 c1 c2 : Column)
    (h : (Table.mk "Brick_Item" Brick_Item_columns rows).lookup [c0] = none) :
    memStub.ReplaceRow (brickLedger rows) "Brick_Item" ⟨[c0, c1, c2]⟩ =
      ((false, none), brickLedger rows) := by
  simp [memStub, memReplaceRow, findTable_brickLedger, keyOf_three, h]

theorem lookup_after_insert (rows : List Row) (K a b : String)
    (h : (Table.mk "Brick_Item" Brick_Item_columns rows).lookup [stringColumn K] = none) :
    (Table.mk "Brick_Item" Brick_Item_columns
        (rows ++ [⟨[stringColumn K, stringColumn a, stringColumn b]⟩])).lookup [stringColumn K] =
      some ⟨[stringColumn K, stringColumn a, stringColumn b]⟩ := by
  rw [lookup_append, h]
  simp [keyOf_three]

/-- On the reference ledger the upsert of a key with no row is applied as an insert. -/
theorem insertItem_fresh (rows : List Row) (K a b : String)
    (h : (Table.mk "Brick_Item" Brick_Item_columns rows).lookup [stringColumn K] = none) :
    (insertItem memStub (brickLedger rows) [K, a, b]).out = .ret [] none ∧
    (insertItem memStub (brickLedger rows) [K, a, b]).state =
      brickLedger (rows ++ [⟨[stringColumn K, stringColumn a, stringColumn b]⟩]) := by
  simp [insertItem, memGetRow_brickLedger, h, memInsertRow_fresh]

/-- On the reference ledger, reading a key whose row was just inserted with
string columns returns the nil slice: the second column is not a `Column_Bytes`. -/
theorem readItem_after_insert (rows : List Row) (K a b : String)
    (h : (Table.mk "Brick_Item" Brick_Item_columns rows).lookup [stringColumn K] = none) :
    (readItem memStub
        (brickLedger (rows ++ [⟨[stringColumn K, stringColumn a, stringColumn b]⟩])) [K]).out =
      .ret [] none := by
  simp only [readItem, List.length_cons, List.length_nil, List.getD_cons_zero,
    memGetRow_brickLedger, lookup_after_insert rows K a b h]
  simp [stringColumn, Column.GetBytes]

/-! ## The operations against an arbitrary backend -/

/-- C1 (Upsert, merge step).  When `GetRow` for the key answers, without error,
a row of three string columns `(k0, a0, b0)`, `insertItem [key, field_a, field_b]`
issues after that lookup exactly one further call: a `ReplaceRow` on `Brick_Item`
whose row is `(k0 ++ " " ++ key, a0 ++ " " ++ field_a, b0 ++ " " ++ field_b)`;
none of its calls is an `InsertRow`. -/
theorem insertItem_merge_step {σ : Type} (stub : ChaincodeStubInterface σ) (s s1 : σ)
    (key field_a field_b k0 a0 b0 : String)
    (hget : stub.GetRow s "Brick_Item" [stringColumn key] =
      ((⟨[stringColumn k0, stringColumn a0, stringColumn b0]⟩, none), s1)) :
    (insertItem stub s [key, field_a, field_b]).calls =
      [ Call.GetRow "Brick_Item" [stringColumn key]
          ⟨[stringColumn k0, stringColumn a0, stringColumn b0]⟩ none,
        Call.ReplaceRow "Brick_Item"
          ⟨[stringColumn (k0 ++ " " ++ key), stringColumn (a0 ++ " " ++ field_a),
            stringColumn (b0 ++ " " ++ field_b)]⟩
          (stub.ReplaceRow s1 "Brick_Item"
            ⟨[stringColumn (k0 ++ " " ++ key), stringColumn (a0 ++ " " ++ field_a),
              stringColumn (b0 ++ " " ++ field_b)]⟩).1.1
          (stub.ReplaceRow s1 "Brick_Item"
            ⟨[stringColumn (k0 ++ " " ++ key), stringColumn (a0 ++ " " ++ field_a),
              stringColumn (b0 ++ " " ++ field_b)]⟩).1.2 ] ∧
    (∀ c ∈ (insertItem stub s [key, field_a, field_b]).calls, c.isInsertRow = false) := by
  have hc : (insertItem stub s [key, field_a, field_b]).calls =
      [ Call.GetRow "Brick_Item" [stringColumn key]
          ⟨[stringColumn k0, stringColumn a0, stringColumn b0]⟩ none,
        Call.ReplaceRow "Brick_Item"
          ⟨[stringColumn (k0 ++ " " ++ key), stringColumn (a0 ++ " " ++ field_a),
            stringColumn (b0 ++ " " ++ field_b)]⟩
          (stub.ReplaceRow s1 "Brick_Item"
            ⟨[stringColumn (k0 ++ " " ++ key), stringColumn (a0 ++ " " ++ field_a),
              stringColumn (b0 ++ " " ++ field_b)]⟩).1.1
          (stub.ReplaceRow s1 "Brick_Item"
            ⟨[stringColumn (k0 ++ " " ++ key), stringColumn (a0 ++ " " ++ field_a),
              stringColumn (b0 ++ " " ++ field_b)]⟩).1.2 ] := by
    simp only [insertItem, List.length_cons, List.length_nil, List.getD_cons_zero,
      List.getD_cons_succ, hget]
    simp [stringColumn, Column.GetString_]
    split <;> [skip; split] <;> simp
  refine ⟨hc, ?_⟩
  rw [hc]
  intro c hcmem
  simp at hcmem
  rcases hcmem with rfl | rfl <;> rfl

/-- Witness of C1 on the reference ledger holding the row `("A", "10", "5")`:
upserting `("A", "20", "3")` issues `ReplaceRow` with `("A A", "10 20", "5 3")`. -/
theorem insertItem_merge_step_witness :
    memStub.GetRow (brickLedger [⟨[stringColumn "A", stringColumn "10", stringColumn "5"]⟩])
        "Brick_Item" [stringColumn "A"] =
      ((⟨[stringColumn "A", stringColumn "10", stringColumn "5"]⟩, none),
        brickLedger [⟨[stringColumn "A", stringColumn "10", stringColumn "5"]⟩]) ∧
    (insertItem memStub (brickLedger [⟨[stringColumn "A", stringColumn "10", stringColumn "5"]⟩])
        ["A", "20", "3"]).calls =
      [ Call.GetRow "Brick_Item" [stringColumn "A"]
          ⟨[stringColumn "A", stringColumn "10", stringColumn "5"]⟩ none,
        Call.ReplaceRow "Brick_Item"
          ⟨[stringColumn "A A", stringColumn "10 20", stringColumn "5 3"]⟩ false none ] :=
  ⟨by decide,
   (insertItem_merge_step memStub
      (brickLedger [⟨[stringColumn "A", stringColumn "10", stringColumn "5"]⟩])
      (brickLedger [⟨[stringColumn "A", stringColumn "10", stringColumn "5"]⟩])
      "A" "20" "3" "A" "10" "5" (by decide)).1⟩

/-- C2 (Upsert, insert step).  When `GetRow` for the key answers, without error,
a row with zero columns, the calls of `insertItem [key, field_a, field_b]` are
that lookup followed by one `InsertRow` on `Brick_Item` with the row
`(key, field_a, field_b)` verbatim: it is the only write, the last call (no
`GetRow` follows it), and no call is a `ReplaceRow`. -/
theorem insertItem_insert_step {σ : Type} (stub : ChaincodeStubInterface σ) (s s1 : σ)
    (key field_a field_b : String)
    (hget : stub.GetRow s "Brick_Item" [stringColumn key] = ((⟨[]⟩, none), s1)) :
    (insertItem stub s [key, field_a, field_b]).calls =
      [ Call.GetRow "Brick_Item" [stringColumn key] ⟨[]⟩ none,
        Call.InsertRow "Brick_Item"
          ⟨[stringColumn key, stringColumn field_a, stringColumn field_b]⟩
          (stub.InsertRow s1 "Brick_Item"
            ⟨[stringColumn key, stringColumn field_a, stringColumn field_b]⟩).1.1
          (stub.InsertRow s1 "Brick_Item"
            ⟨[stringColumn key, stringColumn field_a, stringColumn field_b]⟩).1.2 ] ∧
    ((insertItem stub s [key, field_a, field_b]).calls.filter Call.isWrite).length = 1 ∧
    (∀ c ∈ (insertItem stub s [key, field_a, field_b]).calls, c.isReplaceRow = false) ∧
    (∀ c, (insertItem stub s [key, field_a, field_b]).calls.getLast? = some c →
      c.isInsertRow = true) := by
  have hc : (insertItem stub s [key, field_a, field_b]).calls =
      [ Call.GetRow "Brick_Item" [stringColumn key] ⟨[]⟩ none,
        Call.InsertRow "Brick_Item"
          ⟨[stringColumn key, stringColumn field_a, stringColumn field_b]⟩
          (stub.InsertRow s1 "Brick_Item"
            ⟨[stringColumn key, stringColumn field_a, stringColumn field_b]⟩).1.1
          (stub.InsertRow s1 "Brick_Item"
            ⟨[stringColumn key, stringColumn field_a, stringColumn field_b]⟩).1.2 ] := by
    simp only [insertItem, List.length_cons, List.length_nil, List.getD_cons_zero,
      List.getD_cons_succ, hget]
    simp
    split <;> [skip; split] <;> simp
  rw [hc]
  refine ⟨rfl, by simp [List.filter, Call.isWrite, Call.isInsertRow, Call.isReplaceRow], ?_, ?_⟩
  · intro c hcmem
    simp at hcmem
    rcases hcmem with rfl | rfl <;> rfl
  · intro c hlast
    simp at hlast
    subst hlast
    rfl

/-- Witness of C2 on the initialized reference ledger: upserting `("A", "10", "5")`
issues one `InsertRow` with that row, which is applied. -/
theorem insertItem_insert_step_witness :
    memStub.GetRow initialized "Brick_Item" [stringColumn "A"] = ((⟨[]⟩, none), initialized) ∧
    (insertItem memStub initialized ["A", "10", "5"]).calls =
      [ Call.GetRow "Brick_Item" [stringColumn "A"] ⟨[]⟩ none,
        Call.InsertRow "Brick_Item"
          ⟨[stringColumn "A", stringColumn "10", stringColumn "5"]⟩ true none ] :=
  ⟨by decide,
   (insertItem_insert_step memStub initialized initialized "A" "10" "5" (by decide)).1⟩

/-- Claim C7 (argument arity).  With a number of arguments other than 3,
`insertItem` returns the error "Incorrect number of arguments. Expecting 2"; other
than 1, `readItem` returns "Expecting one argument as key"; other than 0, `Init`
returns "Incorrect number of arguments. Expecting 0" (the InvalidArgument errors).
In each case no stub call is issued and the ledger state is the one given. -/
theorem arity_errors {σ : Type} (stub : ChaincodeStubInterface σ) (s : σ) (args : List String) :
    (args.length ≠ 3 →
      (insertItem stub s args).out =
          .ret [] (some "Incorrect number of arguments. Expecting 2") ∧
        (insertItem stub s args).calls = [] ∧ (insertItem stub s args).state = s) ∧
    (args.length ≠ 1 →
      (readItem stub s args).out = .ret [] (some "Expecting one argument as key") ∧
        (readItem stub s args).calls = [] ∧ (readItem stub s args).state = s) ∧
    (args.length ≠ 0 →
      (Init stub s args).out = .ret [] (some "Incorrect number of arguments. Expecting 0") ∧
        (Init stub s args).calls = [] ∧ (Init stub s args).state = s) := by
  refine ⟨fun h => ?_, fun h => ?_, fun h => ?_⟩
  · simp [insertItem, h]
  · simp [readItem, h]
  · simp [Init, h]

/-- Witness of C7: `insertItem` with 2 and with 4 arguments, `readItem` with 0
and with 2, `Init` with 1, on the reference ledger. -/
theorem arity_errors_witness :
    (["A", "10"].length ≠ 3 ∧ ["A", "10", "5", "x"].length ≠ 3 ∧
      ([] : List String).length ≠ 1 ∧ ["A", "B"].length ≠ 1 ∧ ["x"].length ≠ 0) ∧
    (insertItem memStub initialized ["A", "10"]).out =
      .ret [] (some "Incorrect number of arguments. Expecting 2") ∧
    (insertItem memStub initialized ["A", "10", "5", "x"]).state = initialized ∧
    (readItem memStub initialized []).calls = [] ∧
    (readItem memStub initialized ["A", "B"]).out =
      .ret [] (some "Expecting one argument as key") ∧
    (Init memStub [] ["x"]).state = [] :=
  ⟨by decide,
   ((arity_errors memStub initialized ["A", "10"]).1 (by decide)).1,
   ((arity_errors memStub initialized ["A", "10", "5", "x"]).1 (by decide)).2.2,
   ((arity_errors memStub initialized []).2.1 (by decide)).2.1,
   ((arity_errors memStub initialized ["A", "B"]).2.1 (by decide)).1,
   ((arity_errors memStub [] ["x"]).2.2 (by decide)).2.2⟩

/-- Claim C8 (dual-channel write failure), as amended.  Let `insertItem
[key, field_a, field_b]` get from `GetRow`, without error, a row with zero columns
or with at least three.  Then the backend receives exactly one write: with zero
columns the `InsertRow` of `(key, field_a, field_b)`, otherwise the `ReplaceRow`
of the merged row.  Whatever the stub answers to that write, `(ok, err)` with
state `s2`: the method ends in state `s2`; it returns `(nil, nil)` exactly when
`ok = true` and `err` is nil; when `err` is an error `e` it returns
"Failed inserting row [e]" / "Failed replacing row [e]"; when `err` is nil and
`ok = false` it returns "Failed inserting row." / "Failed replacing row.". -/
theorem insertItem_dual_channel {σ : Type} (stub : ChaincodeStubInterface σ) (s s1 : σ)
    (key field_a field_b : String) (row : Row)
    (hget : stub.GetRow s "Brick_Item" [stringColumn key] = ((row, none), s1)) :
    (row.Columns = [] →
      ∀ (ok : Bool) (err : Option GoError) (s2 : σ),
        stub.InsertRow s1 "Brick_Item"
            ⟨[stringColumn key, stringColumn field_a, stringColumn field_b]⟩ =
          ((ok, err), s2) →
        (insertItem stub s [key, field_a, field_b]).calls =
          [ Call.GetRow "Brick_Item" [stringColumn key] row none,
            Call.InsertRow "Brick_Item"
              ⟨[stringColumn key, stringColumn field_a, stringColumn field_b]⟩ ok err ] ∧
        (insertItem stub s [key, field_a, field_b]).state = s2 ∧
        ((insertItem stub s [key, field_a, field_b]).out = .ret [] none ↔
          ok = true ∧ err = none) ∧
        (∀ e, err = some e → (insertItem stub s [key, field_a, field_b]).out =
          .ret [] (some ("Failed inserting row [" ++ e ++ "]"))) ∧
        (err = none → ok = false → (insertItem stub s [key, field_a, field_b]).out =
          .ret [] (some "Failed inserting row."))) ∧
    (∀ (c0 c1 c2 : Column) (rest : List Column), row.Columns = c0 :: c1 :: c2 :: rest →
      ∀ (ok : Bool) (err : Option GoError) (s2 : σ),
        stub.ReplaceRow s1 "Brick_Item"
            ⟨[stringColumn (c0.GetString_ ++ " " ++ key),
              stringColumn (c1.GetString_ ++ " " ++ field_a),
              stringColumn (c2.GetString_ ++ " " ++ field_b)]⟩ =
          ((ok, err), s2) →
        (insertItem stub s [key, field_a, field_b]).calls =
          [ Call.GetRow "Brick_Item" [stringColumn key] row none,
            Call.ReplaceRow "Brick_Item"
              ⟨[stringColumn (c0.GetString_ ++ " " ++ key),
                stringColumn (c1.GetString_ ++ " " ++ field_a),
                stringColumn (c2.GetString_ ++ " " ++ field_b)]⟩ ok err ] ∧
        (insertItem stub s [key, field_a, field_b]).state = s2 ∧
        ((insertItem stub s [key, field_a, field_b]).out = .ret [] none ↔
          ok = true ∧ err = none) ∧
        (∀ e, err = some e → (insertItem stub s [key, field_a, field_b]).out =
          .ret [] (some ("Failed replacing row [" ++ e ++ "]"))) ∧
        (err = none → ok = false → (insertItem stub s [key, field_a, field_b]).out =
          .ret [] (some "Failed replacing row."))) := by
  obtain ⟨cols⟩ := row
  refine ⟨?_, ?_⟩
  · intro hcols ok err s2 hw
    simp only at hcols
    subst hcols
    simp only [insertItem, List.length_cons, List.length_nil, List.getD_cons_zero,
      List.getD_cons_succ, hget, hw]
    cases err with
    | some e => simp
    | none => cases ok <;> simp
  · intro c0 c1 c2 rest hcols ok err s2 hw
    simp only at hcols
    subst hcols
    simp only [insertItem, List.length_cons, List.length_nil, List.getD_cons_zero,
      List.getD_cons_succ, hget]
    simp only [List.getElem?_cons_zero, List.getElem?_cons_succ, hw]
    cases err with
    | some e => simp
    | none => cases ok <;> simp

/-- Witness of C8 on the reference ledger.  With no row under "A" the `InsertRow`
of `("A", "10", "5")` is answered `(true, nil)` and the upsert returns
`(nil, nil)`; with the row `("A", "10", "5")` stored the `ReplaceRow` of
`("A A", "10 20", "5 3")` is answered `(false, nil)` and the upsert returns
"Failed replacing row.". -/
theorem insertItem_dual_channel_witness :
    (memStub.GetRow (brickLedger []) "Brick_Item" [stringColumn "A"] =
        ((⟨[]⟩, none), brickLedger []) ∧
      memStub.InsertRow (brickLedger []) "Brick_Item"
          ⟨[stringColumn "A", stringColumn "10", stringColumn "5"]⟩ =
        ((true, none),
          brickLedger [⟨[stringColumn "A", stringColumn "10", stringColumn "5"]⟩]) ∧
      (insertItem memStub (brickLedger []) ["A", "10", "5"]).out = .ret [] none) ∧
    (memStub.GetRow (brickLedger [⟨[stringColumn "A", stringColumn "10", stringColumn "5"]⟩])
          "Brick_Item" [stringColumn "A"] =
        ((⟨[stringColumn "A", stringColumn "10", stringColumn "5"]⟩, none),
          brickLedger [⟨[stringColumn "A", stringColumn "10", stringColumn "5"]⟩]) ∧
      memStub.ReplaceRow
          (brickLedger [⟨[stringColumn "A", stringColumn "10", stringColumn "5"]⟩]) "Brick_Item"
          ⟨[stringColumn ((stringColumn "A").GetString_ ++ " " ++ "A"),
            stringColumn ((stringColumn "10").GetString_ ++ " " ++ "20"),
            stringColumn ((stringColumn "5").GetString_ ++ " " ++ "3")]⟩ =
        ((false, none),
          brickLedger [⟨[stringColumn "A", stringColumn "10", stringColumn "5"]⟩]) ∧
      (insertItem memStub
          (brickLedger [⟨[stringColumn "A", stringColumn "10", stringColumn "5"]⟩])
          ["A", "20", "3"]).out = .ret [] (some "Failed replacing row.")) :=
  ⟨⟨by decide, by decide,
    ((insertItem_dual_channel memStub (brickLedger []) (brickLedger []) "A" "10" "5" ⟨[]⟩
        (by decide)).1 rfl true none
        (brickLedger [⟨[stringColumn "A", stringColumn "10", stringColumn "5"]⟩])
        (by decide)).2.2.1.2 ⟨rfl, rfl⟩⟩,
   ⟨by decide, by decide,
    ((insertItem_dual_channel memStub
        (brickLedger [⟨[stringColumn "A", stringColumn "10", stringColumn "5"]⟩])
        (brickLedger [⟨[stringColumn "A", stringColumn "10", stringColumn "5"]⟩])
        "A" "20" "3" ⟨[stringColumn "A", stringColumn "10", stringColumn "5"]⟩
        (by decide)).2 (stringColumn "A") (stringColumn "10") (stringColumn "5") [] rfl
        false none (brickLedger [⟨[stringColumn "A", stringColumn "10", stringColumn "5"]⟩])
        (by decide)).2.2.2.2 rfl rfl⟩⟩

/-- Counterexample to C8 as stated.  On the reference ledger whose table holds the
one-column row `("A")`, `GetRow` for "A" succeeds with that row, which does not
have zero columns; yet `insertItem ["A", "20", "3"]` issues no write at all (its
only call is the `GetRow`), and it returns neither `(nil, nil)` nor a replace
failure: it stops at `row.Columns[1]`, index 1 out of range for length 1. -/
theorem insertItem_dual_channel_counterexample :
    memStub.GetRow (brickLedger [⟨[stringColumn "A"]⟩]) "Brick_Item" [stringColumn "A"] =
      ((⟨[stringColumn "A"]⟩, none), brickLedger [⟨[stringColumn "A"]⟩]) ∧
    (insertItem memStub (brickLedger [⟨[stringColumn "A"]⟩]) ["A", "20", "3"]).calls =
      [ Call.GetRow "Brick_Item" [stringColumn "A"] ⟨[stringColumn "A"]⟩ none ] ∧
    ((insertItem memStub (brickLedger [⟨[stringColumn "A"]⟩]) ["A", "20", "3"]).calls.filter
      Call.isWrite) = [] ∧
    (insertItem memStub (brickLedger [⟨[stringColumn "A"]⟩]) ["A", "20", "3"]).out =
      .indexOutOfRange 1 1 := by
  decide

/-- Claim C9 (create-once initialization).  `Init` with zero arguments issues
exactly one stub call, `CreateTable` of `Brick_Item` with the ordered schema
`[(Item_ID, STRING, key), (Unit_Price, STRING, not key), (Item_Quantity, STRING,
not key)]`, leaves the state that call left, returns `(nil, nil)` exactly when the
call reported no error and "Failed creating Brick_Item table." otherwise.  Hence on
a backend that rejects creating an existing table, from a state in which the
creation goes through, the first `Init` succeeds and a second one fails. -/
theorem Init_create_once {σ : Type} (stub : ChaincodeStubInterface σ) (s : σ) :
    (Init stub s []).calls =
      [ Call.CreateTable "Brick_Item"
          [ ⟨"Item_ID", .STRING, true⟩, ⟨"Unit_Price", .STRING, false⟩,
            ⟨"Item_Quantity", .STRING, false⟩ ]
          (stub.CreateTable s "Brick_Item" Brick_Item_columns).1 ] ∧
    (Init stub s []).state = (stub.CreateTable s "Brick_Item" Brick_Item_columns).2 ∧
    ((Init stub s []).out = .ret [] none ↔
      (stub.CreateTable s "Brick_Item" Brick_Item_columns).1 = none) ∧
    ((stub.CreateTable s "Brick_Item" Brick_Item_columns).1 ≠ none →
      (Init stub s []).out = .ret [] (some "Failed creating Brick_Item table.")) ∧
    (RejectsDuplicateTable stub →
      (stub.CreateTable s "Brick_Item" Brick_Item_columns).1 = none →
        (Init stub s []).out = .ret [] none ∧
        (Init stub (Init stub s []).state []).out =
          .ret [] (some "Failed creating Brick_Item table.")) := by
  have hstate :
      (Init stub s []).state = (stub.CreateTable s "Brick_Item" Brick_Item_columns).2 := by
    simp only [Init, List.length_nil, ne_eq, not_true_eq_false, if_false]
    split <;> rfl
  have hout : ∀ t : σ, ((Init stub t []).out = .ret [] none ↔
      (stub.CreateTable t "Brick_Item" Brick_Item_columns).1 = none) ∧
      ((stub.CreateTable t "Brick_Item" Brick_Item_columns).1 ≠ none →
      (Init stub t []).out = .ret [] (some "Failed creating Brick_Item table.")) := by
    intro t
    simp only [Init, List.length_nil, ne_eq, not_true_eq_false, if_false]
    split <;> simp_all
  refine ⟨?_, hstate, (hout s).1, (hout s).2, ?_⟩
  · simp only [Init, List.length_nil, ne_eq, not_true_eq_false, if_false]
    split <;> simp_all [Brick_Item_columns]
  · intro hrej hnone
    refine ⟨(hout s).1.2 hnone, ?_⟩
    rw [hstate]
    exact (hout _).2 (hrej s "Brick_Item" Brick_Item_columns Brick_Item_columns hnone)

/-- Witness of C9 on the reference ledger: `Init` succeeds on the empty ledger and
fails on the ledger it left. -/
theorem Init_create_once_witness :
    (RejectsDuplicateTable memStub ∧
      (memStub.CreateTable [] "Brick_Item" Brick_Item_columns).1 = none) ∧
    (Init memStub [] []).out = .ret [] none ∧
    (Init memStub (Init memStub [] []).state []).out =
      .ret [] (some "Failed creating Brick_Item table.") :=
  ⟨⟨memStub_rejectsDuplicateTable, by decide⟩,
   (Init_create_once memStub []).2.2.2.2 memStub_rejectsDuplicateTable (by decide)⟩

/-- Claim C10 (backend error text).  When `GetRow` fails with `e`, the errors
returned by `insertItem` and by `readItem` contain the text of `e`.  When
`CreateTable` fails with `e`, `Init` returns the fixed text
"Failed creating Brick_Item table." whatever `e` is: the text of `e` is dropped. -/
theorem backend_error_text {σ : Type} (stub : ChaincodeStubInterface σ) (s : σ)
    (key field_a field_b e : String) :
    ((stub.CreateTable s "Brick_Item" Brick_Item_columns).1 = some e →
      (Init stub s []).out = .ret [] (some "Failed creating Brick_Item table.")) ∧
    ((stub.GetRow s "Brick_Item" [stringColumn key]).1.2 = some e →
      ∃ msg, (insertItem stub s [key, field_a, field_b]).out = .ret [] (some msg) ∧
        containsText msg e) ∧
    ((stub.GetRow s "Brick_Item" [stringColumn key]).1.2 = some e →
      ∃ msg, (readItem stub s [key]).out = .ret [] (some msg) ∧ containsText msg e) := by
  refine ⟨fun h => ?_, fun h => ?_, fun h => ?_⟩
  · simp [Init, h]
  · refine ⟨"Failed retriving associated row [" ++ e ++ "]", by simp [insertItem, h], ?_⟩
    exact ⟨"Failed retriving associated row [".data, "]".data, by simp⟩
  · refine ⟨"Failed retriving item_code [" ++ key ++ "]: [" ++ e ++ "]",
      by simp [readItem, h], ?_⟩
    exact ⟨("Failed retriving item_code [" ++ key ++ "]: [").data, "]".data, by simp⟩

/-- Witness of C10: a second `Init` on the reference ledger.  `CreateTable` fails
with "CreateTable operation failed. Table Brick_Item already exists."; `Init`
returns "Failed creating Brick_Item table.", which does not contain that text. -/
theorem backend_error_text_witness :
    (memStub.CreateTable initialized "Brick_Item" Brick_Item_columns).1 =
      some "CreateTable operation failed. Table Brick_Item already exists." ∧
    (Init memStub initialized []).out = .ret [] (some "Failed creating Brick_Item table.") ∧
    ¬ containsText "Failed creating Brick_Item table."
        "CreateTable operation failed. Table Brick_Item already exists." :=
  ⟨by decide,
   (backend_error_text memStub initialized "A" "10" "5"
      "CreateTable operation failed. Table Brick_Item already exists.").1 (by decide),
   by decide⟩

/-- Claim C5 (query on an absent key).  When `GetRow` answers, without error, a row
with zero columns, `readItem [key]` does not return an error value: the index
expression `row.Columns[1]` is out of range for length 0 and the method panics. -/
theorem readItem_absent_key {σ : Type} (stub : ChaincodeStubInterface σ) (s s1 : σ)
    (key : String)
    (hget : stub.GetRow s "Brick_Item" [stringColumn key] = ((⟨[]⟩, none), s1)) :
    (readItem stub s [key]).out = .indexOutOfRange 1 0 := by
  simp [readItem, hget]

/-- Witness of C5: `readItem ["ZZZ"]` on the initialized reference ledger. -/
theorem readItem_absent_key_witness :
    memStub.GetRow initialized "Brick_Item" [stringColumn "ZZZ"] =
      ((⟨[]⟩, none), initialized) ∧
    (readItem memStub initialized ["ZZZ"]).out = .indexOutOfRange 1 0 :=
  ⟨by decide, readItem_absent_key memStub initialized initialized "ZZZ" (by decide)⟩

/-- Claim C6 (no aborts).  `Init` always returns.  `insertItem` fails to return
exactly when it has three arguments and `GetRow` answers, without error, a row of
1 or 2 columns; `readItem` fails to return exactly when it has one argument and
`GetRow` answers, without error, a row of 0 or 1 columns.  In particular
`readItem ["ZZZ"]` on the reference ledger holding no rows does not return. -/
theorem returned_iff {σ : Type} (stub : ChaincodeStubInterface σ) (s : σ) (args : List String) :
    (Init stub s args).out.returned = true ∧
    ((insertItem stub s args).out.returned = false ↔
      args.length = 3 ∧
      (stub.GetRow s "Brick_Item" [stringColumn (args.getD 0 "")]).1.2 = none ∧
      ((stub.GetRow s "Brick_Item" [stringColumn (args.getD 0 "")]).1.1.Columns.length = 1 ∨
       (stub.GetRow s "Brick_Item" [stringColumn (args.getD 0 "")]).1.1.Columns.length = 2)) ∧
    ((readItem stub s args).out.returned = false ↔
      args.length = 1 ∧
      (stub.GetRow s "Brick_Item" [stringColumn (args.getD 0 "")]).1.2 = none ∧
      (stub.GetRow s "Brick_Item" [stringColumn (args.getD 0 "")]).1.1.Columns.length < 2) ∧
    (readItem memStub (brickLedger []) ["ZZZ"]).out.returned = false := by
  refine ⟨?_, ?_, ?_, by decide⟩
  · simp only [Init]
    split <;> [rfl; split] <;> rfl
  · simp only [insertItem]
    by_cases hlen : args.length = 3
    · simp only [hlen, ne_eq, not_true_eq_false, if_false, true_and]
      generalize stub.GetRow s "Brick_Item" [stringColumn (args.getD 0 "")] = g
      obtain ⟨⟨⟨cols⟩, err⟩, s1⟩ := g
      cases err with
      | some e => simp [Outcome.returned]
      | none =>
        match cols with
        | [] =>
          simp
          split <;> [skip; split] <;> simp [Outcome.returned]
        | [c0] => simp [Outcome.returned]
        | [c0, c1] => simp [Outcome.returned]
        | c0 :: c1 :: c2 :: rest =>
          simp
          split <;> [skip; split] <;> simp [Outcome.returned]
    · simp [hlen, Outcome.returned]
  · simp only [readItem]
    by_cases hlen : args.length = 1
    · simp only [hlen, ne_eq, not_true_eq_false, if_false, true_and]
      generalize stub.GetRow s "Brick_Item" [stringColumn (args.getD 0 "")] = g
      obtain ⟨⟨⟨cols⟩, err⟩, s1⟩ := g
      cases err with
      | some e => simp [Outcome.returned]
      | none =>
        match cols with
        | [] => simp [Outcome.returned]
        | [c0] => simp [Outcome.returned]
        | c0 :: c1 :: rest => simp [Outcome.returned]
    · simp [hlen, Outcome.returned]

/-! ## The operations against the reference ledger -/

/-- Claim C4 (first upsert, then read).  On the reference ledger holding the table
`Brick_Item` and no row under the key `K`, `insertItem [K, field_a, field_b]`
returns `(nil, nil)` and stores the row `(K, field_a, field_b)`; the following
`readItem [K]` returns `(nil, nil)`: its payload is the nil slice whatever
`field_a` is, because `GetBytes` is applied to a column stored as a string. -/
theorem first_upsert_then_read (rows : List Row) (K field_a field_b : String)
    (hfresh : (Table.mk "Brick_Item" Brick_Item_columns rows).lookup [stringColumn K] = none) :
    (insertItem memStub (brickLedger rows) [K, field_a, field_b]).out = .ret [] none ∧
    (insertItem memStub (brickLedger rows) [K, field_a, field_b]).state =
      brickLedger (rows ++ [⟨[stringColumn K, stringColumn field_a, stringColumn field_b]⟩]) ∧
    (readItem memStub (insertItem memStub (brickLedger rows) [K, field_a, field_b]).state
        [K]).out = .ret [] none := by
  have hrun := insertItem_fresh rows K field_a field_b hfresh
  refine ⟨hrun.1, hrun.2, ?_⟩
  rw [hrun.2]
  exact readItem_after_insert rows K field_a field_b hfresh

/-- Witness of C4: after `Init`, `insertItem ["K", "10", "5"]` succeeds and
`readItem ["K"]` returns the nil slice, not the bytes `[0x31, 0x30]` of "10". -/
theorem first_upsert_then_read_witness :
    (Table.mk "Brick_Item" Brick_Item_columns []).lookup [stringColumn "K"] = none ∧
    (insertItem memStub (brickLedger []) ["K", "10", "5"]).out = .ret [] none ∧
    (readItem memStub (insertItem memStub (brickLedger []) ["K", "10", "5"]).state ["K"]).out =
      .ret [] none ∧
    stringBytes "10" = [49, 48] :=
  ⟨by decide, (first_upsert_then_read [] "K" "10" "5" (by decide)).1,
   (first_upsert_then_read [] "K" "10" "5" (by decide)).2.2, by decide⟩

/-- Claim C3 (merge accumulation end to end).  On the reference ledger holding the
table `Brick_Item` and no row under `K` nor under `K ++ " " ++ K`: the first
`insertItem [K, a1, b1]` returns `(nil, nil)`; the second `insertItem [K, a2, b2]`
finds the row `(K, a1, b1)` and issues `ReplaceRow` with
`(K ++ " " ++ K, a1 ++ " " ++ a2, b1 ++ " " ++ b2)`, which the ledger answers
`false` (no row has that key), so it returns "Failed replacing row." and the stored
row stays `(K, a1, b1)`; `readItem [K]` then returns the nil slice. -/
theorem second_upsert_not_applied (rows : List Row) (K a1 b1 a2 b2 : String)
    (hfresh : (Table.mk "Brick_Item" Brick_Item_columns rows).lookup [stringColumn K] = none)
    (hfresh2 : (Table.mk "Brick_Item" Brick_Item_columns rows).lookup
      [stringColumn (K ++ " " ++ K)] = none) :
    (insertItem memStub (brickLedger rows) [K, a1, b1]).out = .ret [] none ∧
    (insertItem memStub (insertItem memStub (brickLedger rows) [K, a1, b1]).state
        [K, a2, b2]).calls =
      [ Call.GetRow "Brick_Item" [stringColumn K]
          ⟨[stringColumn K, stringColumn a1, stringColumn b1]⟩ none,
        Call.ReplaceRow "Brick_Item"
          ⟨[stringColumn (K ++ " " ++ K), stringColumn (a1 ++ " " ++ a2),
            stringColumn (b1 ++ " " ++ b2)]⟩ false none ] ∧
    (insertItem memStub (insertItem memStub (brickLedger rows) [K, a1, b1]).state
        [K, a2, b2]).out = .ret [] (some "Failed replacing row.") ∧
    (insertItem memStub (insertItem memStub (brickLedger rows) [K, a1, b1]).state
        [K, a2, b2]).state =
      brickLedger (rows ++ [⟨[stringColumn K, stringColumn a1, stringColumn b1]⟩]) ∧
    (readItem memStub
        (insertItem memStub (insertItem memStub (brickLedger rows) [K, a1, b1]).state
          [K, a2, b2]).state [K]).out = .ret [] none := by
  have h1 := insertItem_fresh rows K a1 b1 hfresh
  have hk : (Table.mk "Brick_Item" Brick_Item_columns
      (rows ++ [⟨[stringColumn K, stringColumn a1, stringColumn b1]⟩])).lookup
        [stringColumn (K ++ " " ++ K)] = none := by
    rw [lookup_append, hfresh2]
    have hne : ¬ stringColumn K = stringColumn (K ++ " " ++ K) :=
      fun h => append_space_ne K (stringColumn_inj h).symm
    simp [keyOf_three, hne]
  have h2 : (insertItem memStub
      (brickLedger (rows ++ [⟨[stringColumn K, stringColumn a1, stringColumn b1]⟩]))
        [K, a2, b2]) =
      ⟨.ret [] (some "Failed replacing row."),
        brickLedger (rows ++ [⟨[stringColumn K, stringColumn a1, stringColumn b1]⟩]),
        [ Call.GetRow "Brick_Item" [stringColumn K]
          ⟨[stringColumn K, stringColumn a1, stringColumn b1]⟩ none,
        Call.ReplaceRow "Brick_Item"
          ⟨[stringColumn (K ++ " " ++ K), stringColumn (a1 ++ " " ++ a2),
            stringColumn (b1 ++ " " ++ b2)]⟩ false none ]⟩ := by
    simp only [insertItem, List.length_cons, List.length_nil, List.getD_cons_zero,
      List.getD_cons_succ, memGetRow_brickLedger, lookup_after_insert rows K a1 b1 hfresh]
    have hs : ∀ x : String, (stringColumn x).GetString_ = x := fun x => rfl
    simp [hs, memReplaceRow_absent _ _ _ _ hk]
  rw [h1.2, h2]
  exact ⟨h1.1, rfl, rfl, rfl, readItem_after_insert rows K a1 b1 hfresh⟩

/-- Witness of C3: after `Init`, `insertItem ["A", "10", "5"]` then
`insertItem ["A", "20", "3"]`: the second returns "Failed replacing row.", the
stored row is still `("A", "10", "5")`, and `readItem ["A"]` returns the nil
slice, not the bytes of "10 20". -/
theorem second_upsert_not_applied_witness :
    ((Table.mk "Brick_Item" Brick_Item_columns []).lookup [stringColumn "A"] = none ∧
     (Table.mk "Brick_Item" Brick_Item_columns []).lookup
        [stringColumn ("A" ++ " " ++ "A")] = none) ∧
    (insertItem memStub (insertItem memStub (brickLedger []) ["A", "10", "5"]).state
        ["A", "20", "3"]).out = .ret [] (some "Failed replacing row.") ∧
    (insertItem memStub (insertItem memStub (brickLedger []) ["A", "10", "5"]).state
        ["A", "20", "3"]).state =
      brickLedger ([] ++ [⟨[stringColumn "A", stringColumn "10", stringColumn "5"]⟩]) ∧
    (readItem memStub
        (insertItem memStub (insertItem memStub (brickLedger []) ["A", "10", "5"]).state
          ["A", "20", "3"]).state ["A"]).out = .ret [] none ∧
    stringBytes "10 20" ≠ [] :=
  ⟨⟨by decide, by decide⟩,
   (second_upsert_not_applied [] "A" "10" "5" "20" "3" (by decide) (by decide)).2.2.1,
   (second_upsert_not_applied [] "A" "10" "5" "20" "3" (by decide) (by decide)).2.2.2.1,
   (second_upsert_not_applied [] "A" "10" "5" "20" "3" (by decide) (by decide)).2.2.2.2,
   by decide⟩

end Chaincode
